import Mathlib

/-!
Shallow embedding of the EU Flight Monitor data-ingestion and
delay-classification pipeline (`02_practical-task`): the SQLAlchemy data
model (`db/models.py`), the ingestion processor
(`api/flight_data.py::process_flight_data`), the mock data source
(`api/flight_data.py::generate_mock_flight_data`), the query service
(`services/flight_service.py`), and the monitor (`services/delay_monitor.py`).

Timestamps are modelled as integers (minutes).  The database is a record of
lists of rows; a SQLAlchemy session is a pair (committed state, pending
state), `commit` copying pending into committed and `rollback` copying
committed back into pending.
-/

/-- Row of the `airlines` table (`db/models.py::Airline`). -/
structure Airline where
  id : Nat
  name : String
  iata_code : String
  icao_code : String
  country : String
deriving DecidableEq, Repr

/-- Row of the `airports` table (`db/models.py::Airport`).  Coordinates are
omitted: no specified operation reads them. -/
structure Airport where
  id : Nat
  name : String
  iata_code : String
  icao_code : String
  country : String
  city : String
deriving DecidableEq, Repr

/-- Row of the `flights` table (`db/models.py::Flight`). -/
structure Flight where
  id : Nat
  flight_number : String
  airline_id : Nat
  departure_airport_id : Nat
  arrival_airport_id : Nat
  scheduled_departure : Int
  scheduled_arrival : Int
  actual_departure : Option Int
  actual_arrival : Option Int
  status : String
deriving DecidableEq, Repr

/-- Row of the `flight_status` table (`db/models.py::FlightStatus`). -/
structure FlightStatus where
  flight_id : Nat
  is_delayed : Bool
  delay_minutes : Int
  delay_reason : Option String
  last_updated : Int
deriving DecidableEq, Repr

/-- Database state: one list of rows per table.  `next_flight_id` models the
autoincrementing primary key handed out by `db.flush()`. -/
structure DB where
  airlines : List Airline
  airports : List Airport
  flights : List Flight
  flight_status : List FlightStatus
  next_flight_id : Nat
deriving DecidableEq, Repr

/-- A normalized flight record as produced by the data source adapter
(`api/flight_data.py`): the dictionary shape consumed by
`process_flight_data`.  `flight_iata` is `flight_info["flight"]["iata"]`,
used as the flight number. -/
structure FlightRecord where
  flight_iata : String
  airline_iata : String
  departure_iata : String
  arrival_iata : String
  sched_dep : Int
  sched_arr : Int
  actual_dep : Option Int
  actual_arr : Option Int
  status : String
  delay : Int
deriving DecidableEq, Repr

/-- `db.query(Airline).filter_by(iata_code=...).first()`. -/
def findAirline (airlines : List Airline) (iata : String) : Option Airline :=
  airlines.find? (fun a => a.iata_code == iata)

/-- `db.query(Airport).filter_by(iata_code=...).first()`. -/
def findAirport (airports : List Airport) (iata : String) : Option Airport :=
  airports.find? (fun a => a.iata_code == iata)

/-- `db.query(Flight).filter_by(flight_number=..., scheduled_departure=...).first()`. -/
def findFlight (flights : List Flight) (num : String) (sched : Int) : Option Flight :=
  flights.find? (fun f => f.flight_number == num && f.scheduled_departure == sched)

/-- `db.query(FlightStatus).filter_by(flight_id=...).first()`. -/
def statusOf (statuses : List FlightStatus) (fid : Nat) : Option FlightStatus :=
  statuses.find? (fun s => s.flight_id == fid)

/-- `if record_value: row.field = record_value` — a truthy (present) value
overwrites the stored one, an absent value leaves it unchanged
(`flight_data.py` lines 177-181, `flight_service.py` lines 153-157). -/
def applyActual (newv old : Option Int) : Option Int :=
  match newv with
  | some v => some v
  | none => old

/-- Steps 4-5 of the ingestion processor: apply actual departure/arrival
timestamps when present in the record, then overwrite the status string. -/
def updateFlightFields (fl : Flight) (r : FlightRecord) : Flight :=
  { fl with
    actual_departure := applyActual r.actual_dep fl.actual_departure
    actual_arrival := applyActual r.actual_arr fl.actual_arrival
    status := r.status }

/-- The `Flight(...)` constructor call in `process_flight_data` (lines
164-174); `db.flush()` assigns the next primary key. -/
def mkFlight (fid : Nat) (r : FlightRecord) (airline : Airline)
    (dep arr : Airport) : Flight :=
  { id := fid
    flight_number := r.flight_iata
    airline_id := airline.id
    departure_airport_id := dep.id
    arrival_airport_id := arr.id
    scheduled_departure := r.sched_dep
    scheduled_arrival := r.sched_arr
    actual_departure := none
    actual_arrival := none
    status := r.status }

/-- Step 6 of the ingestion processor (`flight_data.py` lines 186-195):
look up the `FlightStatus` row for the flight, creating it if absent, then
set `delay_minutes`, `is_delayed := delay_minutes >= 120` (the threshold is
the literal `120` in the source, line 194) and `last_updated := now`. -/
def upsertStatus (now : Int) (db : DB) (fid : Nat) (delay : Int) : DB :=
  match statusOf db.flight_status fid with
  | some _ =>
    let upd : FlightStatus → FlightStatus := fun s =>
      if s.flight_id == fid then
        { s with delay_minutes := delay, is_delayed := decide (delay ≥ 120),
                 last_updated := now }
      else s
    { db with flight_status := db.flight_status.map upd }
  | none =>
    let s : FlightStatus :=
      { flight_id := fid, is_delayed := decide (delay ≥ 120),
        delay_minutes := delay, delay_reason := none, last_updated := now }
    { db with flight_status := db.flight_status ++ [s] }

/-- One iteration of the loop body of `process_flight_data` on the pending
database state.  Returns `none` when the record is skipped (`continue`)
because its airline or one of its airports is missing, `some db'` when the
record was fully applied. -/
def tryProcessRecord (now : Int) (db : DB) (r : FlightRecord) : Option DB :=
  match findAirline db.airlines r.airline_iata with
  | none => none
  | some airline =>
    match findAirport db.airports r.departure_iata,
          findAirport db.airports r.arrival_iata with
    | some dep, some arr =>
      match findFlight db.flights r.flight_iata r.sched_dep with
      | some fl =>
        let fl' := updateFlightFields fl r
        let db' := { db with
          flights := db.flights.map (fun f => if f.id == fl.id then fl' else f) }
        some (upsertStatus now db' fl.id r.delay)
      | none =>
        let fl := mkFlight db.next_flight_id r airline dep arr
        let fl' := updateFlightFields fl r
        let db' := { db with
          flights := db.flights ++ [fl']
          next_flight_id := db.next_flight_id + 1 }
        some (upsertStatus now db' fl.id r.delay)
    | _, _ => none

/-- Effect of one record on the database: a skipped record leaves the state
unchanged. -/
def processRecord (now : Int) (db : DB) (r : FlightRecord) : DB :=
  (tryProcessRecord now db r).getD db

/-- Processing a whole batch when every per-record commit succeeds. -/
def ingest (now : Int) (records : List FlightRecord) (db : DB) : DB :=
  records.foldl (processRecord now) db

/-- A SQLAlchemy session: committed state and pending (in-transaction)
state.  `commit` copies pending over committed; `rollback` copies committed
back over pending. -/
structure Session where
  committed : DB
  pending : DB
deriving DecidableEq, Repr

/-- `api/flight_data.py::process_flight_data`: for each record, skip it when
its reference data is absent, otherwise apply it to the pending state and
`db.commit()`.  A persistence failure during a commit (modelled by the
environment predicate `fails`) raises; the surrounding `except` block logs,
rolls the session back to the committed state and abandons the remaining
records, and the function returns normally (total: no exception escapes).
The result is the committed database when the session is closed. -/
def process_flight_data (now : Int) (fails : FlightRecord → Bool) :
    List FlightRecord → Session → DB
  | [], s => s.committed
  | r :: rs, s =>
    match tryProcessRecord now s.pending r with
    | none => process_flight_data now fails rs s
    | some db' =>
      if fails r then s.committed
      else process_flight_data now fails rs ⟨db', db'⟩

/-- Python truthiness of an optional string argument (`if status:`,
`if delay_reason:`): present and non-empty. -/
def strTruthy (o : Option String) : Bool :=
  match o with
  | some s => s != ""
  | none => false

/-- `services/flight_service.py::FlightService.update_flight_status`.
`threshold` is the configured `DELAY_THRESHOLD_MINUTES` (default 120).
Returns the Python return value (the updated flight, or `None` when the
flight id is unknown) together with the database state after the call. -/
def update_flight_status (threshold now : Int) (flight_id : Nat)
    (actual_departure actual_arrival : Option Int)
    (status : Option String) (delay_minutes : Option Int)
    (delay_reason : Option String) (db : DB) : Option Flight × DB :=
  match db.flights.find? (fun f => f.id == flight_id) with
  | none => (none, db)
  | some fl =>
    let fl' := { fl with
      actual_departure := applyActual actual_departure fl.actual_departure
      actual_arrival := applyActual actual_arrival fl.actual_arrival
      status := if strTruthy status then status.getD fl.status else fl.status }
    let base : FlightStatus :=
      match statusOf db.flight_status flight_id with
      | some s => s
      | none =>
        { flight_id := flight_id, is_delayed := false, delay_minutes := 0,
          delay_reason := none, last_updated := now }
    let st1 : FlightStatus :=
      match delay_minutes with
      | some d =>
        { base with delay_minutes := d, is_delayed := decide (d ≥ threshold) }
      | none => base
    let st2 : FlightStatus :=
      if strTruthy delay_reason then { st1 with delay_reason := delay_reason }
      else st1
    let st3 : FlightStatus := { st2 with last_updated := now }
    let statuses :=
      match statusOf db.flight_status flight_id with
      | some _ =>
        db.flight_status.map (fun s => if s.flight_id == flight_id then st3 else s)
      | none => db.flight_status ++ [st3]
    (some fl',
     { db with
       flights := db.flights.map (fun f => if f.id == flight_id then fl' else f)
       flight_status := statuses })

/-- 90 days in minutes (`timedelta(days=90)`). -/
def ninetyDays : Int := 90 * 24 * 60

/-- The join-and-filter condition shared by the two claims queries: the
flight has a `FlightStatus` row with `is_delayed == True` and
`delay_minutes >= DELAY_THRESHOLD_MINUTES`, and
`scheduled_departure >= now - 90 days`. -/
def claimsDelayCond (threshold now : Int) (db : DB) (f : Flight) : Bool :=
  match statusOf db.flight_status f.id with
  | some s =>
    s.is_delayed && decide (s.delay_minutes ≥ threshold) &&
      decide (f.scheduled_departure ≥ now - ninetyDays)
  | none => false

/-- `services/flight_service.py::FlightService.get_flights_for_claims`:
delayed at or above threshold within the trailing 90 days.  The source has
no condition on `Flight.status`. -/
def get_flights_for_claims (threshold now : Int) (db : DB) : List Flight :=
  db.flights.filter (claimsDelayCond threshold now db)

/-- `services/delay_monitor.py::DelayMonitor.identify_claim_eligible_flights`:
same conditions plus `Flight.status == "landed"`, returning the ids. -/
def identify_claim_eligible_flights (threshold now : Int) (db : DB) : List Nat :=
  (db.flights.filter (fun f =>
    claimsDelayCond threshold now db f && f.status == "landed")).map (fun f => f.id)

/-- `services/flight_service.py::FlightService.get_delayed_flights`. -/
def get_delayed_flights (min_delay_minutes : Int) (db : DB) : List Flight :=
  db.flights.filter (fun f =>
    match statusOf db.flight_status f.id with
    | some s => s.is_delayed && decide (s.delay_minutes ≥ min_delay_minutes)
    | none => false)

/-- Python's `round(x, 2)` on the exact rational value. -/
def round2 (q : ℚ) : ℚ := (round (q * 100) : ℤ) / 100

/-- One entry of the per-airline breakdown of the daily report. -/
structure AirlineStat where
  name : String
  delayed_flights : Nat
  average_delay : ℚ
deriving DecidableEq, Repr

/-- The report dictionary built by `DelayMonitor.generate_daily_report`. -/
structure DailyReport where
  date : Int
  total_flights : Nat
  delayed_flights : Nat
  delay_percentage : ℚ
  average_delay_minutes : ℚ
  airlines : List AirlineStat
deriving DecidableEq, Repr

/-- Start of yesterday (`datetime.combine(yesterday, datetime.min.time())`)
at minute granularity. -/
def yesterdayStart (now : Int) : Int := (now.ediv 1440 - 1) * 1440

/-- End of yesterday (`datetime.combine(yesterday, datetime.max.time())`):
the last minute of the previous day. -/
def yesterdayEnd (now : Int) : Int := now.ediv 1440 * 1440 - 1

/-- `flight.flight_status.delay_minutes` for a flight in the delayed set
(the join guarantees the row exists; 0 otherwise). -/
def delayMinutesOf (db : DB) (f : Flight) : Int :=
  match statusOf db.flight_status f.id with
  | some s => s.delay_minutes
  | none => 0

/-- `flight.airline.name` via the `airline_id` foreign key. -/
def airlineNameOf (db : DB) (f : Flight) : String :=
  match db.airlines.find? (fun a => a.id == f.airline_id) with
  | some a => a.name
  | none => ""

/-- Insertion-ordered accumulation of `airline_stats[name]`: count of
delayed flights and total delay minutes per airline name. -/
def addStat (acc : List (String × Nat × Int)) (name : String) (d : Int) :
    List (String × Nat × Int) :=
  match acc with
  | [] => [(name, 1, d)]
  | (n, c, t) :: rest =>
    if n == name then (n, c + 1, t + d) :: rest
    else (n, c, t) :: addStat rest name d

/-- The delayed-flights query of `DelayMonitor.generate_daily_report`:
flights with a delayed status row at or above the threshold, scheduled
within yesterday. -/
def reportDelayedFlights (threshold now : Int) (db : DB) : List Flight :=
  db.flights.filter (fun f =>
    match statusOf db.flight_status f.id with
    | some s =>
      s.is_delayed && decide (s.delay_minutes ≥ threshold) &&
        decide (f.scheduled_departure ≥ yesterdayStart now) &&
        decide (f.scheduled_departure ≤ yesterdayEnd now)
    | none => false)

/-- The flights scheduled yesterday (the `total_flights` count query). -/
def reportWindowFlights (now : Int) (db : DB) : List Flight :=
  db.flights.filter (fun f =>
    decide (f.scheduled_departure ≥ yesterdayStart now) &&
      decide (f.scheduled_departure ≤ yesterdayEnd now))

/-- `services/delay_monitor.py::DelayMonitor.generate_daily_report`:
statistics over yesterday's flights.  `threshold` is the configured
`DELAY_THRESHOLD_MINUTES`.  Saving the JSON artifact to disk is a side
effect outside the state modelled here. -/
def generate_daily_report (threshold now : Int) (db : DB) : DailyReport :=
  let delayed := reportDelayedFlights threshold now db
  let total_flights := (reportWindowFlights now db).length
  let total_delayed := delayed.length
  let delay_percentage : ℚ :=
    if total_flights > 0 then (total_delayed : ℚ) / (total_flights : ℚ) * 100
    else 0
  let avg_delay : ℚ :=
    if total_delayed > 0 then
      ((delayed.map (delayMinutesOf db)).sum : ℚ) / (total_delayed : ℚ)
    else 0
  let stats := delayed.foldl
    (fun acc f => addStat acc (airlineNameOf db f) (delayMinutesOf db f)) []
  { date := yesterdayStart now
    total_flights := total_flights
    delayed_flights := total_delayed
    delay_percentage := round2 delay_percentage
    average_delay_minutes := round2 avg_delay
    airlines := stats.map (fun p =>
      { name := p.1, delayed_flights := p.2.1,
        average_delay := round2 ((p.2.2 : ℚ) / (p.2.1 : ℚ)) }) }

/-- The fixed airline table of `generate_mock_flight_data`
(name, iata, icao). -/
def mockAirlines : List (String × String × String) :=
  [("Lufthansa", "LH", "DLH"), ("Eurowings", "EW", "EWG"),
   ("Ryanair", "FR", "RYR"), ("Air France", "AF", "AFR"),
   ("British Airways", "BA", "BAW")]

/-- The fixed destination table of `generate_mock_flight_data`
(name, iata). -/
def mockDestinations : List (String × String) :=
  [("London Heathrow", "LHR"), ("Paris Charles de Gaulle", "CDG"),
   ("Amsterdam Schiphol", "AMS"), ("Madrid Barajas", "MAD"),
   ("Rome Fiumicino", "FCO")]

/-- Record `i` of the mock generator loop (`flight_data.py` lines 70-120):
airline and destination cycle mod 5; scheduled departure is
`now + i hours + 30*i minutes`; every third record (`i % 3 == 0`) gets the
internal 150-minute delay, the rest 10 minutes; actual times appear only
once the scheduled instant is in the past; the status string is derived by
comparing `now` to the scheduled/actual windows; the returned `"delay"`
field is `delay_minutes if is_delayed else 0`. -/
def mkMockFlight (airport_code : String) (now : Int) (i : Nat) : FlightRecord :=
  let airline := mockAirlines.getD (i % 5) ("", "", "")
  let dest := mockDestinations.getD (i % 5) ("", "")
  let sched_dep : Int := now + 60 * (i : Int) + 30 * (i : Int)
  let sched_arr : Int := sched_dep + 120
  let is_delayed : Bool := i % 3 == 0
  let delay_minutes : Int := if is_delayed then 150 else 10
  { flight_iata := airline.2.1 ++ toString (1000 + i)
    airline_iata := airline.2.1
    departure_iata := airport_code
    arrival_iata := dest.2
    sched_dep := sched_dep
    sched_arr := sched_arr
    actual_dep := if sched_dep < now then some (sched_dep + delay_minutes) else none
    actual_arr := if sched_arr < now then some (sched_arr + delay_minutes) else none
    status :=
      if now < sched_dep then "scheduled"
      else if now < sched_dep + delay_minutes then "boarding"
      else if now < sched_arr + delay_minutes then "in-air"
      else "landed"
    delay := if is_delayed then delay_minutes else 0 }

/-- `api/flight_data.py::generate_mock_flight_data`: ten records derived
from the airport code and the current wall-clock instant. -/
def generate_mock_flight_data (airport_code : String) (now : Int) :
    List FlightRecord :=
  (List.range 10).map (mkMockFlight airport_code now)

/-- Outcome of one scheduled job body at one tick: it either completes or
raises an exception. -/
inductive JobResult where
  | ok
  | raises
deriving DecidableEq, Repr

/-- The third-party scheduler's `schedule.run_pending()`: due jobs are run
in order by calling their bodies directly; the library installs no handler,
so the first exception raised by a job body propagates to the caller. -/
def run_pending : List JobResult → Except Unit Unit
  | [] => Except.ok ()
  | JobResult.ok :: rest => run_pending rest
  | JobResult.raises :: _ => Except.error ()

/-- The monitoring loop of `DelayMonitor.start_monitoring_schedule`
(`while True: schedule.run_pending(); time.sleep(60)`), observed over a
finite trace of ticks, each tick listing the outcomes of the jobs due at
that tick.  The loop body contains no exception handler, so an error from
`run_pending` propagates and the loop stops; otherwise the loop survives
the whole trace (and in the source would keep ticking forever).  Returns
the number of ticks completed, or the index of the crashing tick as an
error. -/
def start_monitoring_schedule : List (List JobResult) → Except Nat Nat
  | [] => Except.ok 0
  | tick :: rest =>
    match run_pending tick with
    | Except.error _ => Except.error 0
    | Except.ok _ =>
      match start_monitoring_schedule rest with
      | Except.ok n => Except.ok (n + 1)
      | Except.error i => Except.error (i + 1)

/-! ### Sample data used by witnesses and counterexamples -/

/-- A seeded airline row. -/
def alLH : Airline :=
  { id := 1, name := "Lufthansa", iata_code := "LH", icao_code := "DLH",
    country := "Germany" }

/-- A seeded airport row. -/
def apFRA : Airport :=
  { id := 1, name := "Frankfurt Airport", iata_code := "FRA",
    icao_code := "EDDF", country := "Germany", city := "Frankfurt" }

/-- A second seeded airport row. -/
def apLHR : Airport :=
  { id := 2, name := "London Heathrow", iata_code := "LHR",
    icao_code := "EGLL", country := "United Kingdom", city := "London" }

/-- Reference data only: one airline, two airports, no flights. -/
def dbRef : DB :=
  { airlines := [alLH], airports := [apFRA, apLHR], flights := [],
    flight_status := [], next_flight_id := 1 }

/-- A completely empty database. -/
def dbEmpty : DB :=
  { airlines := [], airports := [], flights := [], flight_status := [],
    next_flight_id := 1 }

/-- A normalized record resolvable against `dbRef`. -/
def recBase : FlightRecord :=
  { flight_iata := "LH1000", airline_iata := "LH", departure_iata := "FRA",
    arrival_iata := "LHR", sched_dep := 100, sched_arr := 220,
    actual_dep := none, actual_arr := none, status := "scheduled",
    delay := 120 }

/-! ### C10: update_flight_status on an unknown flight id -/

/-- C10: `update_flight_status` called with a flight_id that matches no
`Flight` row returns `None` and leaves the database untouched: no `Flight`
row is changed and no `FlightStatus` row is created or changed. -/
theorem update_flight_status_not_found (threshold now : Int) (flight_id : Nat)
    (ad aa : Option Int) (st : Option String) (dm : Option Int)
    (dr : Option String) (db : DB)
    (h : db.flights.find? (fun f => f.id == flight_id) = none) :
    update_flight_status threshold now flight_id ad aa st dm dr db = (none, db) := by
  unfold update_flight_status
  rw [h]

/-- Witness for C10 at a concrete database with no flight of id 7. -/
theorem update_flight_status_not_found_witness :
    update_flight_status 120 0 7 none none (some "landed") (some 130) none dbRef =
      (none, dbRef) :=
  update_flight_status_not_found 120 0 7 none none (some "landed") (some 130)
    none dbRef (by decide)

/-! ### C9: determinism of the mock generator -/

/-- C9: the mock generator is a pure function of the pair
(airport code, current instant): two calls with the same airport code
evaluated at the same instant produce the same 10 flight numbers, the same
statuses and the same delay values. -/
theorem generate_mock_flight_data_deterministic (code : String) (now : Int) :
    (generate_mock_flight_data code now).length = 10 ∧
    (generate_mock_flight_data code now).map (fun r => r.flight_iata) =
      (generate_mock_flight_data code now).map (fun r => r.flight_iata) ∧
    (generate_mock_flight_data code now).map (fun r => r.status) =
      (generate_mock_flight_data code now).map (fun r => r.status) ∧
    (generate_mock_flight_data code now).map (fun r => r.delay) =
      (generate_mock_flight_data code now).map (fun r => r.delay) :=
  ⟨rfl, rfl, rfl, rfl⟩

/-! ### C3: a job exception terminates the monitoring loop -/

/-- C3 (divergence witness): the loop body of `start_monitoring_schedule`
contains no failure boundary, so while a trace of successful jobs is
processed tick after tick, a single job body raising at its tick makes the
exception propagate out of `run_pending` and terminates the loop: the tick
after the failing one is never reached. -/
theorem monitoring_loop_crashes_on_job_exception :
    start_monitoring_schedule [[JobResult.ok], [JobResult.ok], [JobResult.ok]] =
      Except.ok 3 ∧
    start_monitoring_schedule [[JobResult.ok], [JobResult.raises], [JobResult.ok]] =
      Except.error 1 :=
  ⟨rfl, rfl⟩

/-! ### C8: delays and statuses of the mock records -/

/-- C8 (counterexample): it is false that every mock record carries either
the large 150-minute delay or the small 10-minute delay in its returned
delay field: the records with `i % 3 ≠ 0` return `delay = 0`, because the
source sets `"delay": delay_minutes if is_delayed else 0`. -/
theorem generate_mock_flight_data_delay_cex :
    ¬ (∀ r ∈ generate_mock_flight_data "FRA" 0, r.delay = 150 ∨ r.delay = 10) := by
  decide

/-- The first mock record (i = 0) is generated at its scheduled departure
instant with the 150-minute internal delay, so its status window comparison
yields "boarding". -/
theorem mkMockFlight_status_zero (code : String) (now : Int) :
    (mkMockFlight code now 0).status = "boarding" := by
  simp only [mkMockFlight]
  norm_num

/-- Every later mock record (i ≥ 1) is scheduled strictly in the future, so
its status window comparison yields "scheduled". -/
theorem mkMockFlight_status_pos (code : String) (now : Int) (i : Nat)
    (h : 0 < i) : (mkMockFlight code now i).status = "scheduled" := by
  simp only [mkMockFlight]
  have hi : (1 : Int) ≤ (i : Int) := by exact_mod_cast h
  rw [if_pos (by omega)]

/-- C8 (amended): every third generated record (indices 0, 3, 6, 9) carries
the artificial 150-minute delay in the returned delay field and each of the
other records carries 0 there (the internal 10-minute delay shifts only the
actual-time and status computation); the status strings are derived purely
from comparing the instant `now` to the scheduled/actual windows, which at
generation time makes record 0 "boarding" and records 1-9 "scheduled". -/
theorem generate_mock_flight_data_delays_statuses (code : String) (now : Int) :
    (generate_mock_flight_data code now).map (fun r => r.delay) =
      [150, 0, 0, 150, 0, 0, 150, 0, 0, 150] ∧
    (generate_mock_flight_data code now).map (fun r => r.status) =
      "boarding" :: List.replicate 9 "scheduled" := by
  constructor
  · rfl
  · show ((List.range 10).map (mkMockFlight code now)).map (fun r => r.status) = _
    rw [show List.range 10 = [0, 1, 2, 3, 4, 5, 6, 7, 8, 9] from rfl]
    simp only [List.map_cons, List.map_nil]
    rw [mkMockFlight_status_zero,
        mkMockFlight_status_pos code now 1 (by norm_num),
        mkMockFlight_status_pos code now 2 (by norm_num),
        mkMockFlight_status_pos code now 3 (by norm_num),
        mkMockFlight_status_pos code now 4 (by norm_num),
        mkMockFlight_status_pos code now 5 (by norm_num),
        mkMockFlight_status_pos code now 6 (by norm_num),
        mkMockFlight_status_pos code now 7 (by norm_num),
        mkMockFlight_status_pos code now 8 (by norm_num),
        mkMockFlight_status_pos code now 9 (by norm_num)]
    rfl

/-! ### C2: the claims-eligible queries -/

/-- The delay-and-window condition of the claims queries, stated
propositionally. -/
def ClaimsDelayProp (threshold now : Int) (db : DB) (f : Flight) : Prop :=
  (∃ s, statusOf db.flight_status f.id = some s ∧ s.is_delayed = true ∧
    s.delay_minutes ≥ threshold) ∧
  f.scheduled_departure ≥ now - ninetyDays

theorem claimsDelayCond_iff (threshold now : Int) (db : DB) (f : Flight) :
    claimsDelayCond threshold now db f = true ↔
      ClaimsDelayProp threshold now db f := by
  unfold claimsDelayCond ClaimsDelayProp
  cases h : statusOf db.flight_status f.id with
  | none => simp [h]
  | some s => simp [h, Bool.and_eq_true, decide_eq_true_eq, and_assoc]

/-- A delayed, recently scheduled flight that has not landed. -/
def flInAir : Flight :=
  { id := 1, flight_number := "LH1000", airline_id := 1,
    departure_airport_id := 1, arrival_airport_id := 2,
    scheduled_departure := 0, scheduled_arrival := 120,
    actual_departure := none, actual_arrival := none, status := "in-air" }

/-- Its delayed status row. -/
def stInAir : FlightStatus :=
  { flight_id := 1, is_delayed := true, delay_minutes := 150,
    delay_reason := none, last_updated := 0 }

/-- Database holding only the in-air delayed flight. -/
def dbInAir : DB :=
  { airlines := [alLH], airports := [apFRA, apLHR], flights := [flInAir],
    flight_status := [stInAir], next_flight_id := 2 }

/-- C2 (counterexample): `FlightService.get_flights_for_claims` returns a
flight whose status is "in-air", refuting "never returns a flight whose
status is not landed": its query filters only on the delay flag, the delay
threshold and the 90-day window, with no condition on `Flight.status`. -/
theorem get_flights_for_claims_cex :
    ∃ f ∈ get_flights_for_claims 120 0 dbInAir, f.status ≠ "landed" := by
  decide

/-- C2 (amended): `DelayMonitor.identify_claim_eligible_flights` returns
exactly the ids of flights delayed at or above the threshold, scheduled
within the 90 days before the evaluation instant and whose status equals
"landed"; `FlightService.get_flights_for_claims` enforces only the delay
and 90-day conditions and can also return flights that have not landed. -/
theorem claims_eligible_queries_spec (threshold now : Int) (db : DB) :
    (∀ i, i ∈ identify_claim_eligible_flights threshold now db ↔
      ∃ f, f ∈ db.flights ∧ ClaimsDelayProp threshold now db f ∧
        f.status = "landed" ∧ f.id = i) ∧
    (∀ f, f ∈ get_flights_for_claims threshold now db ↔
      f ∈ db.flights ∧ ClaimsDelayProp threshold now db f) := by
  constructor
  · intro i
    simp only [identify_claim_eligible_flights, List.mem_map, List.mem_filter,
      Bool.and_eq_true, claimsDelayCond_iff, beq_iff_eq]
    constructor
    · rintro ⟨f, ⟨⟨hf, hc, hl⟩, hi⟩⟩
      exact ⟨f, hf, hc, hl, hi⟩
    · rintro ⟨f, hf, hc, hl, hi⟩
      exact ⟨f, ⟨⟨hf, hc, hl⟩, hi⟩⟩
  · intro f
    simp only [get_flights_for_claims, List.mem_filter, claimsDelayCond_iff]

/-! ### C1: the delay-classification invariant -/

/-- Every stored `FlightStatus` row classifies its delay against the given
threshold: `is_delayed == (delay_minutes >= threshold)`. -/
def statusInv (threshold : Int) (db : DB) : Prop :=
  ∀ s ∈ db.flight_status, s.is_delayed = decide (s.delay_minutes ≥ threshold)

instance (threshold : Int) (db : DB) : Decidable (statusInv threshold db) :=
  inferInstanceAs (Decidable (∀ s ∈ db.flight_status,
    s.is_delayed = decide (s.delay_minutes ≥ threshold)))

theorem upsertStatus_inv (now : Int) (db : DB) (fid : Nat) (delay : Int)
    (h : statusInv 120 db) : statusInv 120 (upsertStatus now db fid delay) := by
  unfold upsertStatus
  cases hf : statusOf db.flight_status fid with
  | some s0 =>
    intro s hs
    simp only [List.mem_map] at hs
    obtain ⟨t, ht, rfl⟩ := hs
    by_cases hb : (t.flight_id == fid) = true
    · simp [hb]
    · simp only [Bool.not_eq_true] at hb
      simp [hb]
      exact h t ht
  | none =>
    intro s hs
    simp only [List.mem_append, List.mem_singleton] at hs
    cases hs with
    | inl h1 => exact h s h1
    | inr h2 => subst h2; rfl

theorem tryProcessRecord_inv (now : Int) (db : DB) (r : FlightRecord) (db' : DB)
    (h : statusInv 120 db) (he : tryProcessRecord now db r = some db') :
    statusInv 120 db' := by
  unfold tryProcessRecord at he
  split at he
  · exact absurd he (by simp)
  · split at he
    · split at he
      · injection he with he
        subst he
        exact upsertStatus_inv _ _ _ _ h
      · injection he with he
        subst he
        exact upsertStatus_inv _ _ _ _ h
    · exact absurd he (by simp)

theorem processRecord_inv (now : Int) (db : DB) (r : FlightRecord)
    (h : statusInv 120 db) : statusInv 120 (processRecord now db r) := by
  unfold processRecord
  cases he : tryProcessRecord now db r with
  | none => exact h
  | some db' => exact tryProcessRecord_inv now db r db' h he

theorem process_flight_data_inv (now : Int) (fails : FlightRecord → Bool)
    (rs : List FlightRecord) (s : Session) (hc : statusInv 120 s.committed)
    (hp : statusInv 120 s.pending) :
    statusInv 120 (process_flight_data now fails rs s) := by
  induction rs generalizing s with
  | nil => exact hc
  | cons r rest ih =>
    simp only [process_flight_data]
    cases he : tryProcessRecord now s.pending r with
    | none => exact ih s hc hp
    | some db' =>
      by_cases hfa : fails r = true
      · simp [hfa, hc]
      · simp only [hfa, if_false, Bool.false_eq_true]
        exact ih ⟨db', db'⟩ (tryProcessRecord_inv now s.pending r db' hp he)
          (tryProcessRecord_inv now s.pending r db' hp he)

theorem update_flight_status_inv (threshold now : Int) (fid : Nat)
    (ad aa : Option Int) (st : Option String) (d : Int) (dr : Option String)
    (db : DB) (h : statusInv threshold db) :
    statusInv threshold
      (update_flight_status threshold now fid ad aa st (some d) dr db).2 := by
  unfold update_flight_status
  cases hfl : db.flights.find? (fun f => f.id == fid) with
  | none => exact h
  | some fl =>
    cases hs : statusOf db.flight_status fid with
    | some s0 =>
      intro s hsm
      simp only [List.mem_map] at hsm
      obtain ⟨t, ht, rfl⟩ := hsm
      by_cases hb : (t.flight_id == fid) = true
      · by_cases hdr : strTruthy dr = true
        · simp [hb, hdr]
        · simp only [Bool.not_eq_true] at hdr
          simp [hb, hdr]
      · simp only [Bool.not_eq_true] at hb
        simp [hb]
        exact h t ht
    | none =>
      intro s hsm
      simp only [List.mem_append, List.mem_singleton] at hsm
      cases hsm with
      | inl h1 => exact h s h1
      | inr h2 =>
        subst h2
        by_cases hdr : strTruthy dr = true
        · simp [hdr]
        · simp only [Bool.not_eq_true] at hdr
          simp [hdr]

/-- C1 (counterexample): with a configured threshold of 121, the row stored
by ingesting a record with `delay = 120` through `process_flight_data` has
`is_delayed = true` although `120 >= 121` is false: the ingestion processor
classifies against the literal `120` of the source, not against the
configured threshold. -/
theorem delay_invariant_cex :
    statusInv 121 dbRef ∧
      ¬ statusInv 121
        (process_flight_data 0 (fun _ => false) [recBase] ⟨dbRef, dbRef⟩) := by
  constructor
  · decide
  · decide

/-- C1 (amended): rows written by `process_flight_data` satisfy
`is_delayed == (delay_minutes >= 120)` — the threshold hardcoded at that
write site — while rows written by `update_flight_status` with
`delay_minutes` supplied satisfy the invariant for the configured threshold;
the claim as stated holds only when the configured threshold equals 120. -/
theorem delay_invariant_amended :
    (∀ (now : Int) (fails : FlightRecord → Bool) (rs : List FlightRecord)
        (s : Session), statusInv 120 s.committed → statusInv 120 s.pending →
        statusInv 120 (process_flight_data now fails rs s)) ∧
    (∀ (threshold now : Int) (fid : Nat) (ad aa : Option Int)
        (st : Option String) (d : Int) (dr : Option String) (db : DB),
        statusInv threshold db →
        statusInv threshold
          (update_flight_status threshold now fid ad aa st (some d) dr db).2) :=
  ⟨process_flight_data_inv, update_flight_status_inv⟩

/-- Witness for C1 (amended) at concrete inputs. -/
theorem delay_invariant_amended_witness :
    statusInv 120 (process_flight_data 0 (fun _ => false) [recBase] ⟨dbRef, dbRef⟩) ∧
    statusInv 121
      (update_flight_status 121 0 1 none none none (some 130) none dbInAir).2 :=
  ⟨delay_invariant_amended.1 0 (fun _ => false) [recBase] ⟨dbRef, dbRef⟩
      (by decide) (by decide),
    delay_invariant_amended.2 121 0 1 none none none 130 none dbInAir (by decide)⟩

/-! ### C7: the daily report -/

/-- A landed flight of airline 1 scheduled yesterday (for `now = 2880`,
yesterday spans minutes 1440 to 2879). -/
def mkYesterdayFlight (i : Nat) : Flight :=
  { id := i, flight_number := "LH" ++ toString (1000 + i), airline_id := 1,
    departure_airport_id := 1, arrival_airport_id := 2,
    scheduled_departure := 1500, scheduled_arrival := 1620,
    actual_departure := none, actual_arrival := none, status := "landed" }

/-- Status row for a flight of the scenario. -/
def mkYesterdayStatus (i : Nat) (delayed : Bool) (d : Int) : FlightStatus :=
  { flight_id := i, is_delayed := delayed, delay_minutes := d,
    delay_reason := none, last_updated := 2880 }

/-- The daily-report scenario: 10 flights scheduled yesterday, flights 1-3
flagged delayed with delays 130, 200 and 150 minutes, the rest on time. -/
def dbYesterday : DB :=
  { airlines := [alLH], airports := [apFRA, apLHR],
    flights := (List.range 10).map (fun i => mkYesterdayFlight (i + 1)),
    flight_status :=
      [mkYesterdayStatus 1 true 130, mkYesterdayStatus 2 true 200,
       mkYesterdayStatus 3 true 150, mkYesterdayStatus 4 false 10,
       mkYesterdayStatus 5 false 10, mkYesterdayStatus 6 false 10,
       mkYesterdayStatus 7 false 10, mkYesterdayStatus 8 false 10,
       mkYesterdayStatus 9 false 10, mkYesterdayStatus 10 false 10],
    next_flight_id := 11 }

/-- C7: the daily report computes `delay_percentage` as
(delayed flights / total flights scheduled yesterday) * 100, reporting 0
when no flight was scheduled, and `average_delay_minutes` as the mean delay
among the delayed flights, reporting 0 when none is delayed; on the
scenario of 10 flights scheduled yesterday with 3 delayed by
[130, 200, 150] minutes it reports delay_percentage = 30 and
average_delay_minutes = 160. -/
theorem generate_daily_report_spec :
    (∀ (threshold now : Int) (db : DB),
        (generate_daily_report threshold now db).total_flights = 0 →
        (generate_daily_report threshold now db).delay_percentage = 0) ∧
    (∀ (threshold now : Int) (db : DB),
        (generate_daily_report threshold now db).delayed_flights = 0 →
        (generate_daily_report threshold now db).average_delay_minutes = 0) ∧
    (generate_daily_report 120 2880 dbYesterday).total_flights = 10 ∧
    (generate_daily_report 120 2880 dbYesterday).delayed_flights = 3 ∧
    (generate_daily_report 120 2880 dbYesterday).delay_percentage = 30 ∧
    (generate_daily_report 120 2880 dbYesterday).average_delay_minutes = 160 := by
  have hw : (reportWindowFlights 2880 dbYesterday).length = 10 := by decide
  have hd : (reportDelayedFlights 120 2880 dbYesterday).length = 3 := by decide
  have hsum :
      ((reportDelayedFlights 120 2880 dbYesterday).map
        (delayMinutesOf dbYesterday)).sum = 480 := by decide
  refine ⟨?_, ?_, ?_, ?_, ?_, ?_⟩
  · intro threshold now db h
    simp only [generate_daily_report] at h ⊢
    rw [h]
    norm_num [round2]
  · intro threshold now db h
    simp only [generate_daily_report] at h ⊢
    rw [h]
    norm_num [round2]
  · simp only [generate_daily_report]
    exact hw
  · simp only [generate_daily_report]
    exact hd
  · simp only [generate_daily_report]
    rw [hw, hd]
    norm_num [round2]
  · simp only [generate_daily_report]
    rw [hd, hsum]
    norm_num [round2]

/-- Witness for C7's zero hypotheses at the empty database. -/
theorem generate_daily_report_spec_witness :
    (generate_daily_report 120 0 dbEmpty).delay_percentage = 0 ∧
    (generate_daily_report 120 0 dbEmpty).average_delay_minutes = 0 :=
  ⟨generate_daily_report_spec.1 120 0 dbEmpty (by decide),
   generate_daily_report_spec.2.1 120 0 dbEmpty (by decide)⟩

/-! ### C5: records with missing reference data are skipped -/

/-- A record hits one of the two `continue` branches of
`process_flight_data`: its airline IATA code, or one of its airport IATA
codes, resolves to no row. -/
def skippedRecord (db : DB) (r : FlightRecord) : Prop :=
  findAirline db.airlines r.airline_iata = none ∨
  findAirport db.airports r.departure_iata = none ∨
  findAirport db.airports r.arrival_iata = none

instance (db : DB) (r : FlightRecord) : Decidable (skippedRecord db r) :=
  inferInstanceAs (Decidable (_ ∨ _ ∨ _))

theorem tryProcessRecord_skip (now : Int) (db : DB) (r : FlightRecord)
    (h : skippedRecord db r) : tryProcessRecord now db r = none := by
  unfold tryProcessRecord
  rcases h with h | h | h
  · rw [h]
  · cases ha : findAirline db.airlines r.airline_iata with
    | none => rfl
    | some al => rw [h]
  · cases ha : findAirline db.airlines r.airline_iata with
    | none => rfl
    | some al =>
      cases hd : findAirport db.airports r.departure_iata with
      | none => rfl
      | some dep => rw [h]

theorem processRecord_skip (now : Int) (db : DB) (r : FlightRecord)
    (h : skippedRecord db r) : processRecord now db r = db := by
  unfold processRecord
  rw [tryProcessRecord_skip now db r h]
  rfl

/-- C5: a record whose airline or airport codes match no existing row is
skipped with no database write, and the batch result is the same as if the
record had not been present: the remaining records are ingested exactly as
they would have been without it. -/
theorem missing_reference_record_skipped (now : Int) (db : DB)
    (r : FlightRecord) (rs1 rs2 : List FlightRecord)
    (h : skippedRecord (ingest now rs1 db) r) :
    processRecord now (ingest now rs1 db) r = ingest now rs1 db ∧
    ingest now (rs1 ++ r :: rs2) db = ingest now (rs1 ++ rs2) db := by
  have hskip : processRecord now (ingest now rs1 db) r = ingest now rs1 db :=
    processRecord_skip now _ r h
  refine ⟨hskip, ?_⟩
  unfold ingest at hskip ⊢
  rw [List.foldl_append, List.foldl_append, List.foldl_cons, hskip]

/-- A record whose airline code resolves to no row of `dbRef`. -/
def recUnknownAirline : FlightRecord :=
  { flight_iata := "XX9999", airline_iata := "XX", departure_iata := "FRA",
    arrival_iata := "LHR", sched_dep := 100, sched_arr := 220,
    actual_dep := none, actual_arr := none, status := "scheduled",
    delay := 10 }

/-- Witness for C5: a batch starting with an unknown-airline record ingests
exactly like the batch without it. -/
theorem missing_reference_record_skipped_witness :
    processRecord 0 (ingest 0 [] dbRef) recUnknownAirline = ingest 0 [] dbRef ∧
    ingest 0 ([] ++ recUnknownAirline :: [recBase]) dbRef =
      ingest 0 ([] ++ [recBase]) dbRef :=
  missing_reference_record_skipped 0 dbRef recUnknownAirline [] [recBase]
    (by decide)

/-! ### C4: a commit failure aborts the batch per-record -/

theorem ingest_cons (now : Int) (r : FlightRecord) (rs : List FlightRecord)
    (db : DB) : ingest now (r :: rs) db = ingest now rs (processRecord now db r) :=
  rfl

/-- C4: when the commit of one record of a batch fails (every earlier
record commits successfully), the transaction is rolled back and the
remaining records are abandoned, and the call returns (no exception
propagates: `process_flight_data` is a total function into database
states); the resulting committed database is exactly the one produced by
the records before the failing one — commits are per record, so earlier
records of the same call remain committed. -/
theorem commit_failure_aborts_batch (now : Int) (fails : FlightRecord → Bool)
    (rs1 : List FlightRecord) (r : FlightRecord) (rs2 : List FlightRecord)
    (db : DB) (h1 : ∀ x ∈ rs1, fails x = false) (h2 : fails r = true)
    (h3 : (tryProcessRecord now (ingest now rs1 db) r).isSome = true) :
    process_flight_data now fails (rs1 ++ r :: rs2) ⟨db, db⟩ =
      ingest now rs1 db := by
  induction rs1 generalizing db with
  | nil =>
    simp only [List.nil_append]
    obtain ⟨db', hd⟩ := Option.isSome_iff_exists.mp h3
    have hd' : tryProcessRecord now db r = some db' := hd
    simp only [process_flight_data]
    rw [hd', h2]
    rfl
  | cons x xs ih =>
    have hx : fails x = false := h1 x (List.mem_cons_self x xs)
    have h1' : ∀ y ∈ xs, fails y = false := fun y hy =>
      h1 y (List.mem_cons_of_mem x hy)
    rw [List.cons_append]
    simp only [process_flight_data]
    cases he : tryProcessRecord now db x with
    | none =>
      have hpr : processRecord now db x = db := by
        unfold processRecord
        rw [he]
        rfl
      have h3' : (tryProcessRecord now (ingest now xs db) r).isSome = true := by
        rw [show ingest now xs db = ingest now (x :: xs) db from by
          rw [ingest_cons, hpr]]
        exact h3
      show process_flight_data now fails (xs ++ r :: rs2) ⟨db, db⟩ =
        ingest now (x :: xs) db
      rw [ih db h1' h3', ingest_cons, hpr]
    | some db' =>
      have hpr : processRecord now db x = db' := by
        unfold processRecord
        rw [he]
        rfl
      have h3' : (tryProcessRecord now (ingest now xs db') r).isSome = true := by
        rw [show ingest now xs db' = ingest now (x :: xs) db from by
          rw [ingest_cons, hpr]]
        exact h3
      rw [show (match some db' with
          | none => process_flight_data now fails (xs ++ r :: rs2) ⟨db, db⟩
          | some db'' =>
            if fails x = true then db
            else process_flight_data now fails (xs ++ r :: rs2) ⟨db'', db''⟩) =
          if fails x = true then db
          else process_flight_data now fails (xs ++ r :: rs2) ⟨db', db'⟩ from rfl]
      rw [hx]
      show process_flight_data now fails (xs ++ r :: rs2) ⟨db', db'⟩ =
        ingest now (x :: xs) db
      rw [ih db' h1' h3', ingest_cons, hpr]

/-- A second record resolvable against `dbRef`, whose commit will fail in
the witness scenario. -/
def recFailing : FlightRecord :=
  { flight_iata := "LH1001", airline_iata := "LH", departure_iata := "FRA",
    arrival_iata := "LHR", sched_dep := 300, sched_arr := 420,
    actual_dep := none, actual_arr := none, status := "scheduled",
    delay := 30 }

/-- A third record of the witness batch, abandoned after the failure. -/
def recAfterFailure : FlightRecord :=
  { flight_iata := "LH1002", airline_iata := "LH", departure_iata := "FRA",
    arrival_iata := "LHR", sched_dep := 500, sched_arr := 620,
    actual_dep := none, actual_arr := none, status := "scheduled",
    delay := 0 }

/-- The environment in which exactly the commit of `recFailing` fails. -/
def failsOnLH1001 (r : FlightRecord) : Bool := r.flight_iata == "LH1001"

/-- Witness for C4: in a three-record batch whose second commit fails, the
committed result is the database after the first record alone. -/
theorem commit_failure_aborts_batch_witness :
    process_flight_data 0 failsOnLH1001
        ([recBase] ++ recFailing :: [recAfterFailure]) ⟨dbRef, dbRef⟩ =
      ingest 0 [recBase] dbRef :=
  commit_failure_aborts_batch 0 failsOnLH1001 [recBase] recFailing
    [recAfterFailure] dbRef (by decide) (by decide) (by decide)

/-! ### C6: idempotent upsert and actual-time monotonicity -/

theorem upsertStatus_flights (now : Int) (db : DB) (fid : Nat) (d : Int) :
    (upsertStatus now db fid d).flights = db.flights := by
  unfold upsertStatus
  cases statusOf db.flight_status fid <;> rfl

theorem upsertStatus_airlines (now : Int) (db : DB) (fid : Nat) (d : Int) :
    (upsertStatus now db fid d).airlines = db.airlines := by
  unfold upsertStatus
  cases statusOf db.flight_status fid <;> rfl

theorem upsertStatus_airports (now : Int) (db : DB) (fid : Nat) (d : Int) :
    (upsertStatus now db fid d).airports = db.airports := by
  unfold upsertStatus
  cases statusOf db.flight_status fid <;> rfl

theorem map_replace_of_no_id (l : List Flight) (fid : Nat) (g : Flight)
    (h : ∀ f ∈ l, f.id ≠ fid) :
    l.map (fun f => if f.id == fid then g else f) = l := by
  induction l with
  | nil => rfl
  | cons a t ih =>
    have ha : (a.id == fid) = false := by
      simp [h a (List.mem_cons_self a t)]
    simp only [List.map_cons, ha, Bool.false_eq_true, if_false]
    rw [ih (fun f hf => h f (List.mem_cons_of_mem a hf))]

theorem applyActual_none (o : Option Int) : applyActual o none = o := by
  cases o <;> rfl

/-- C6: ingesting a record for a fresh (flight_number, scheduled_departure)
key and then a second record for the same key (and same reference codes)
leaves exactly one `Flight` row with that key, and on each pass the actual
timestamps are written only when present in the record — so after the two
upserts the row's actual times are the second record's values when present
and otherwise the first record's: an already-recorded actual time is never
reset to null, and `actual_arrival` holds the latest non-null value
supplied. -/
theorem upsert_twice_single_row (now now' : Int) (db : DB)
    (r r' : FlightRecord)
    (hal : (findAirline db.airlines r.airline_iata).isSome = true)
    (hdep : (findAirport db.airports r.departure_iata).isSome = true)
    (harr : (findAirport db.airports r.arrival_iata).isSome = true)
    (hnf : findFlight db.flights r.flight_iata r.sched_dep = none)
    (hid : ∀ f ∈ db.flights, f.id ≠ db.next_flight_id)
    (hk1 : r'.flight_iata = r.flight_iata) (hk2 : r'.sched_dep = r.sched_dep)
    (hk3 : r'.airline_iata = r.airline_iata)
    (hk4 : r'.departure_iata = r.departure_iata)
    (hk5 : r'.arrival_iata = r.arrival_iata) :
    ((processRecord now' (processRecord now db r) r').flights.filter
        (fun f => f.flight_number == r.flight_iata &&
          f.scheduled_departure == r.sched_dep)).length = 1 ∧
    ((processRecord now' (processRecord now db r) r').flights.filter
        (fun f => f.flight_number == r.flight_iata &&
          f.scheduled_departure == r.sched_dep)).map
        (fun f => (f.actual_departure, f.actual_arrival)) =
      [(applyActual r'.actual_dep r.actual_dep,
        applyActual r'.actual_arr r.actual_arr)] := by
  obtain ⟨al, hal'⟩ := Option.isSome_iff_exists.mp hal
  obtain ⟨dp, hdp'⟩ := Option.isSome_iff_exists.mp hdep
  obtain ⟨ar, har'⟩ := Option.isSome_iff_exists.mp harr
  set fl1 : Flight :=
    updateFlightFields (mkFlight db.next_flight_id r al dp ar) r with hfl1
  set db1 : DB :=
    upsertStatus now
      { db with flights := db.flights ++ [fl1],
                next_flight_id := db.next_flight_id + 1 }
      db.next_flight_id r.delay with hdb1
  have e1 : processRecord now db r = db1 := by
    unfold processRecord tryProcessRecord
    rw [hal', hdp', har', hnf]
    rfl
  have hflights1 : db1.flights = db.flights ++ [fl1] := by
    rw [hdb1, upsertStatus_flights]
  have hA1 : findAirline db1.airlines r'.airline_iata = some al := by
    rw [hdb1, upsertStatus_airlines, hk3]
    exact hal'
  have hD1 : findAirport db1.airports r'.departure_iata = some dp := by
    rw [hdb1, upsertStatus_airports, hk4]
    exact hdp'
  have hR1 : findAirport db1.airports r'.arrival_iata = some ar := by
    rw [hdb1, upsertStatus_airports, hk5]
    exact har'
  have hkey : (fl1.flight_number == r.flight_iata &&
      fl1.scheduled_departure == r.sched_dep) = true := by
    simp [hfl1, updateFlightFields, mkFlight]
  have hFF : findFlight db1.flights r'.flight_iata r'.sched_dep = some fl1 := by
    rw [hflights1, hk1, hk2]
    unfold findFlight at hnf ⊢
    rw [List.find?_append, hnf]
    simp only [Option.none_or, List.find?]
    rw [hkey]
  set fl2 : Flight := updateFlightFields fl1 r' with hfl2
  have e2 : processRecord now' db1 r' =
      upsertStatus now'
        { db1 with flights :=
            db1.flights.map (fun f => if f.id == fl1.id then fl2 else f) }
        fl1.id r'.delay := by
    unfold processRecord tryProcessRecord
    rw [hA1, hD1, hR1, hFF]
    rfl
  have hid1 : fl1.id = db.next_flight_id := rfl
  have hmap : db1.flights.map (fun f => if f.id == fl1.id then fl2 else f) =
      db.flights ++ [fl2] := by
    rw [hflights1, List.map_append, hid1,
      map_replace_of_no_id db.flights db.next_flight_id fl2 hid]
    simp [hid1]
  have hflights2 : (processRecord now' db1 r').flights = db.flights ++ [fl2] := by
    rw [e2, upsertStatus_flights]
    exact hmap
  have hnokey : ∀ f ∈ db.flights,
      ¬((fun f => f.flight_number == r.flight_iata &&
        f.scheduled_departure == r.sched_dep) f = true) := by
    intro f hf
    exact List.find?_eq_none.mp hnf f hf
  have hkey2 : (fl2.flight_number == r.flight_iata &&
      fl2.scheduled_departure == r.sched_dep) = true := by
    simp [hfl2, hfl1, updateFlightFields, mkFlight]
  have hfilter : (processRecord now' (processRecord now db r) r').flights.filter
      (fun f => f.flight_number == r.flight_iata &&
        f.scheduled_departure == r.sched_dep) = [fl2] := by
    rw [e1, hflights2, List.filter_append, List.filter_eq_nil_iff.mpr hnokey]
    simp only [List.nil_append, List.filter, hkey2]
  constructor
  · rw [hfilter]
    rfl
  · rw [hfilter]
    simp only [List.map_cons, List.map_nil]
    rw [hfl2, hfl1]
    simp only [updateFlightFields, mkFlight]
    rw [applyActual_none, applyActual_none]

/-- First ingestion pass of the witness: actual departure and arrival
already recorded. -/
def recFirstPass : FlightRecord :=
  { flight_iata := "LH1000", airline_iata := "LH", departure_iata := "FRA",
    arrival_iata := "LHR", sched_dep := 100, sched_arr := 220,
    actual_dep := some 110, actual_arr := some 260, status := "in-air",
    delay := 40 }

/-- Second ingestion pass of the witness: same key, new actual arrival,
absent actual departure. -/
def recSecondPass : FlightRecord :=
  { flight_iata := "LH1000", airline_iata := "LH", departure_iata := "FRA",
    arrival_iata := "LHR", sched_dep := 100, sched_arr := 220,
    actual_dep := none, actual_arr := some 300, status := "landed",
    delay := 80 }

/-- Witness for C6: two passes over the same key against `dbRef` leave one
row whose actual departure survives the second record's absent value and
whose actual arrival is the latest non-null value supplied. -/
theorem upsert_twice_single_row_witness :
    ((processRecord 1 (processRecord 0 dbRef recFirstPass) recSecondPass).flights.filter
        (fun f => f.flight_number == recFirstPass.flight_iata &&
          f.scheduled_departure == recFirstPass.sched_dep)).length = 1 ∧
    ((processRecord 1 (processRecord 0 dbRef recFirstPass) recSecondPass).flights.filter
        (fun f => f.flight_number == recFirstPass.flight_iata &&
          f.scheduled_departure == recFirstPass.sched_dep)).map
        (fun f => (f.actual_departure, f.actual_arrival)) =
      [(applyActual recSecondPass.actual_dep recFirstPass.actual_dep,
        applyActual recSecondPass.actual_arr recFirstPass.actual_arr)] :=
  upsert_twice_single_row 0 1 dbRef recFirstPass recSecondPass (by decide)
    (by decide) (by decide) (by decide) (by decide) rfl rfl rfl rfl rfl
